import Mathlib

/-!
Verification development for the mrna video-generation app.

The TypeScript sources are shallowly embedded: every asynchronous remote
call (supabase query, text generation, video submission, operation
polling, asset fetch) is represented by an explicit environment record,
and thrown JS exceptions are represented by the Except monad, with the
source try/catch blocks embedded as matches on the Except value.
JS truthiness of optional strings (undefined or empty string is falsy)
is modelled by jsTruthyStr, and the JS or-else idiom by jsOrDefault.
-/

/-- JS truthiness for an optional string value: undefined and the empty
string are falsy; returns the value itself when truthy. -/
def jsTruthyStr : Option String → Option String
  | some s => if s = "" then none else some s
  | none => none

/-- Models the JS idiom x or-else d for an optional string x: the default
is used when x is undefined or empty. -/
def jsOrDefault : Option String → String → String
  | some s, d => if s = "" then d else s
  | none, d => d

/-- Character-list prefix test used to model JS String.includes. -/
def isPrefList : List Char → List Char → Bool
  | [], _ => true
  | _ :: _, [] => false
  | a :: as, b :: bs => a == b && isPrefList as bs

/-- Character-list infix test used to model JS String.includes. -/
def containsSub (pat : List Char) : List Char → Bool
  | [] => pat.isEmpty
  | c :: rest => isPrefList pat (c :: rest) || containsSub pat rest

/-- Models JS String.includes on strings. -/
def jsIncludes (s pat : String) : Bool :=
  containsSub pat.toList s.toList

/-- Models JS String.substring(0, n). -/
def jsSubstringTo (s : String) (n : Nat) : String :=
  ⟨s.data.take n⟩

/- ## supabaseService.ts -/

/-- Theme catalog entry, from THEME_CATEGORIES in supabaseService.ts. -/
structure ThemeData where
  id : String
  name : String
  description : String
deriving DecidableEq

/-- The fixed theme catalog from supabaseService.ts. -/
def THEME_CATEGORIES : List ThemeData := [
  ⟨"safety", "Safety", "Dosage, side effects, contraindications"⟩,
  ⟨"efficacy", "Efficacy", "Clinical outcomes and effectiveness"⟩,
  ⟨"brand", "Brand", "Brand identity and messaging"⟩,
  ⟨"mechanism", "Mechanism of Action", "How the drug works"⟩,
  ⟨"patient", "Patient Focus", "Patient benefits and quality of life"⟩]

/-- Membership of a theme identifier in the known theme catalog. -/
def isKnownTheme (tid : String) : Bool :=
  THEME_CATEGORIES.any fun t => t.id == tid

/-- Snippet record returned by fetchThemeComponents. -/
structure ComponentData where
  id : String
  name : String
  content : String
  sectionLabel : String
deriving DecidableEq

/-- A row of the component_config table as selected by the query:
description and section may be null in the database. -/
structure DbRow where
  id : String
  name : String
  description : Option String
  sectionLabel : Option String
deriving DecidableEq

/-- The supabase query result object: data may be null, error is present
exactly when the query failed at the provider level. -/
structure QueryResult where
  data : Option (List DbRow)
  error : Option String
deriving DecidableEq

/-- Environment for the database boundary: a query by section either
throws (transport failure, the Except error case) or returns a
QueryResult object. -/
structure DbEnv where
  query : String → Except String QueryResult

/-- The theme-to-section map from fetchThemeComponents, including the
or-else Safety default for unknown identifiers. -/
def sectionFor (themeId : String) : String :=
  if themeId = "safety" then "Safety"
  else if themeId = "efficacy" then "Evidence"
  else if themeId = "brand" then "Brand"
  else if themeId = "mechanism" then "Solution"
  else if themeId = "patient" then "Insight"
  else "Safety"

/-- Static fallback list for the safety theme. -/
def safetyFallback : List ComponentData := [
  ⟨"SAFE_01", "Dosage Information", "Recommended dosage and administration guidelines", "Safety"⟩,
  ⟨"SAFE_02", "Strength/Form", "Available strengths and formulations", "Safety"⟩,
  ⟨"SAFE_03", "Safety Claims", "Key safety profile and tolerability data", "Safety"⟩,
  ⟨"SAFE_04", "Side Effects", "Common and rare adverse reactions", "Safety"⟩,
  ⟨"SAFE_05", "Contraindications", "When not to use this medication", "Safety"⟩]

/-- Static fallback list for the efficacy theme. -/
def efficacyFallback : List ComponentData := [
  ⟨"EVID_01", "Efficacy Claim", "Primary efficacy endpoints and outcomes", "Evidence"⟩,
  ⟨"EVID_02", "Chart Data", "Clinical trial results visualization", "Evidence"⟩,
  ⟨"EVID_03", "Study Summary", "Key clinical study highlights", "Evidence"⟩]

/-- Static fallback list for the brand theme. -/
def brandFallback : List ComponentData := [
  ⟨"INIT_01a", "Brand Root Name", "Primary brand identifier", "Brand"⟩,
  ⟨"INIT_03", "Main Headline", "Primary marketing message", "Brand"⟩,
  ⟨"INIT_06", "Tagline", "Brand positioning statement", "Brand"⟩]

/-- Static fallback list for the mechanism theme. -/
def mechanismFallback : List ComponentData := [
  ⟨"SOL_01", "USP/Claims", "Unique selling proposition", "Solution"⟩,
  ⟨"SOL_03", "MOA Diagram", "Mechanism of action visualization", "Solution"⟩]

/-- Static fallback list for the patient theme. -/
def patientFallback : List ComponentData := [
  ⟨"INS_01", "Target Patient", "Ideal patient profile", "Insight"⟩,
  ⟨"INS_02", "Disease Update", "Current disease landscape", "Insight"⟩]

/-- getFallbackComponents from supabaseService.ts: record lookup by theme
identifier, or-else the safety list. -/
def getFallbackComponents (themeId : String) : List ComponentData :=
  if themeId = "safety" then safetyFallback
  else if themeId = "efficacy" then efficacyFallback
  else if themeId = "brand" then brandFallback
  else if themeId = "mechanism" then mechanismFallback
  else if themeId = "patient" then patientFallback
  else safetyFallback

/-- The row mapping applied to successful query data: description
or-else empty, section or-else the computed section. -/
def mapRow (sectionName : String) (r : DbRow) : ComponentData :=
  ⟨r.id, r.name, jsOrDefault r.description "", jsOrDefault r.sectionLabel sectionName⟩

/-- fetchThemeComponents from supabaseService.ts: tries the query for
the mapped section; a thrown query, a provider error, null data or an
empty row list all fall back to the static list for the theme. -/
def fetchThemeComponents (env : DbEnv) (themeId : String) : List ComponentData :=
  let sectionName := sectionFor themeId
  match env.query sectionName with
  | .error _ => getFallbackComponents themeId
  | .ok qr =>
    if qr.error.isSome then getFallbackComponents themeId
    else
      match qr.data with
      | some rows =>
        if rows.length > 0 then rows.map (mapRow sectionName)
        else getFallbackComponents themeId
      | none => getFallbackComponents themeId

/- ## geminiService.ts -/

/-- A JSON value, as produced by the JS runtime JSON.parse. -/
inductive Json where
  | str (s : String)
  | num (n : Int)
  | bool (b : Bool)
  | nullJ
  | arr (xs : List Json)
  | obj (fields : List (String × Json))

/-- Field lookup in a JSON object field list. -/
def fieldAux : List (String × Json) → String → Option Json
  | [], _ => none
  | (k, v) :: fs, key => if k = key then some v else fieldAux fs key

/-- Reads a property of a JSON value, as JS property access does. -/
def jsonField : Json → String → Option Json
  | .obj fs, key => fieldAux fs key
  | _, _ => none

/-- Whether a JSON value is an object carrying the given key. -/
def jsonHasField (j : Json) (k : String) : Bool :=
  match j with
  | .obj fs => (fieldAux fs k).isSome
  | _ => false

/-- Scene record of the VideoScript interface in geminiService.ts. -/
structure Scene where
  timeStart : Int
  timeEnd : Int
  visual : String
  text : String
deriving DecidableEq

/-- The VideoScript interface in geminiService.ts. -/
structure VideoScript where
  title : String
  duration : Int
  scenes : List Scene
  voiceover : String
  prompt : String
deriving DecidableEq

/-- Reads a JSON value as a string, where the TS cast expects one. -/
def asStr : Json → Option String
  | .str s => some s
  | _ => none

/-- Reads a JSON value as a number, where the TS cast expects one. -/
def asInt : Json → Option Int
  | .num n => some n
  | _ => none

/-- Reads a parsed JSON object through the Scene interface shape. -/
def asScene (j : Json) : Option Scene := do
  let ts ← (jsonField j "timeStart").bind asInt
  let te ← (jsonField j "timeEnd").bind asInt
  let v ← (jsonField j "visual").bind asStr
  let t ← (jsonField j "text").bind asStr
  pure ⟨ts, te, v, t⟩

/-- Reads a parsed JSON value through the VideoScript interface shape:
this is the meaning of the unchecked TS cast in generateVideoScript. -/
def asVideoScript (j : Json) : Option VideoScript := do
  let title ← (jsonField j "title").bind asStr
  let duration ← (jsonField j "duration").bind asInt
  let scenesJ ← jsonField j "scenes"
  let scenes ← match scenesJ with
    | .arr xs => xs.mapM asScene
    | _ => none
  let voiceover ← (jsonField j "voiceover").bind asStr
  let prompt ← (jsonField j "prompt").bind asStr
  pure ⟨title, duration, scenes, voiceover, prompt⟩

/-- The bullet list of snippet name and content pairs built by
generateVideoScript. -/
def componentListOf (components : List ComponentData) : String :=
  String.intercalate "\n" (components.map fun c => "- " ++ c.name ++ ": " ++ c.content)

/-- The system prompt template literal of generateVideoScript. -/
def systemPromptText : String :=
  "\nYou are a senior pharmaceutical video ad director and medical copywriter.\nYou create cinematic, compliant, single-shot pharmaceutical video scripts.\nYou ALWAYS return valid JSON only.\n"

/-- The user prompt template literal of generateVideoScript, with the
theme name, theme description, component list and duration interpolated. -/
def userPromptText (themeName themeDescription componentList : String) (durationSeconds : Int) : String :=
  "\nCreate a concise, high-end " ++ toString durationSeconds ++ "-second pharmaceutical video script.\n\nTHEME: " ++ themeName ++ "\nDESCRIPTION: " ++ themeDescription ++ "\n\nCOMPONENTS TO INCORPORATE:\n" ++ componentList ++ "\n\nMANDATORY RULES:\n- EXACT duration: " ++ toString durationSeconds ++ " seconds\n- ONE continuous shot (no cuts, no scene changes)\n- Professional pharmaceutical commercial tone\n- Non-anatomical medical metaphors only\n- Indian patient if a patient is shown\n- No exaggerated or unsafe medical claims\n\nReturn JSON in EXACTLY this schema:\n\x7b\n  \"title\": string,\n  \"duration\": number,\n  \"scenes\": [\n    \x7b\n      \"timeStart\": number,\n      \"timeEnd\": number,\n      \"visual\": string,\n      \"text\": string\n    \x7d\n  ],\n  \"voiceover\": string,\n  \"prompt\": string\n\x7d\n\nIMPORTANT:\n- \"prompt\" MUST be a single, Veo-ready cinematic prompt\n- Include second-by-second timing\n- Specify camera movement, lighting, visual metaphors\n- Clearly include brand name if present in components\n- The full video MUST fit exactly in " ++ toString durationSeconds ++ " seconds\n"

/-- The structured generation request sent by generateVideoScript. -/
structure GenerateContentRequest where
  model : String
  systemText : String
  userText : String
  responseMimeType : String
  temperature : ℚ
deriving DecidableEq

/-- Environment for the text-generation boundary: the generation call
either throws or returns the response text, and the JS runtime
JSON.parse either throws a SyntaxError or returns a JSON value. -/
structure ScriptEnv where
  generateContent : GenerateContentRequest → Except String String
  jsonParse : String → Except String Json

/-- The request generateVideoScript builds for its arguments. -/
def scriptRequest (themeName themeDescription : String) (components : List ComponentData)
    (durationSeconds : Int) : GenerateContentRequest :=
  ⟨"gemini-2.5-flash", systemPromptText,
    userPromptText themeName themeDescription (componentListOf components) durationSeconds,
    "application/json", 3 / 10⟩

/-- generateVideoScript from geminiService.ts: builds the prompts, sends
one generation request, and returns the JSON.parse of the response text
through an unchecked cast to VideoScript. A thrown generation call or a
parse failure propagates to the caller; no validation of the parsed
value is performed. -/
def generateVideoScript (env : ScriptEnv) (themeName themeDescription : String)
    (components : List ComponentData) (durationSeconds : Int := 8) : Except String Json :=
  match env.generateContent
      ⟨"gemini-2.5-flash", systemPromptText,
        userPromptText themeName themeDescription (componentListOf components) durationSeconds,
        "application/json", 3 / 10⟩ with
  | .error e => .error e
  | .ok text =>
    match env.jsonParse text with
    | .error e => .error e
    | .ok j => .ok j

/- ## veoService.ts (second revision, the one importing fetchVideoAsBlob) -/

/-- Result status union of VideoGenerationResult. -/
inductive VideoStatus where
  | completed
  | pending
  | failed
deriving DecidableEq

/-- VideoGenerationResult from veoService.ts. -/
structure VideoGenerationResult where
  videoUrl : String
  status : VideoStatus
  operationName : Option String := none
  error : Option String := none
deriving DecidableEq

/-- VideoGenerationConfig from veoService.ts; aspectRatio defaults to
16:9 when absent, durationSeconds is never read by generateVideo. -/
structure VideoGenerationConfig where
  prompt : String
  durationSeconds : Option Int := none
  aspectRatio : Option String := none
deriving DecidableEq

/-- The video-bearing part of a poll or wait response: the uri under
generatedVideos and the uri under generateVideoResponse
generatedSamples, each possibly absent, plus the JSON serialization of
the whole object as JSON.stringify would produce it. -/
structure VideoResponse where
  gvUri : Option String
  gsUri : Option String
  raw : String
deriving DecidableEq

/-- A JS value as seen by the result-handling code: null, undefined, or
an object with the VideoResponse shape. -/
inductive JsVal where
  | nullV
  | undefV
  | obj (r : VideoResponse)
deriving DecidableEq

/-- Which completion mechanism the returned operation object offers, in
the order generateVideo probes them: a wait method, a result field, a
thenable, or none of these, which forces the manual REST poll. The
Except value models the awaited outcome, error meaning a rejection. -/
inductive WaitSpec where
  | waitFn (r : Except String JsVal)
  | resultField (r : Except String JsVal)
  | thenable (r : Except String JsVal)
  | manualPoll

/-- The operation object resolved by a generateVideos submission: an
optional operation name, an optional immediate video uri, the available
completion mechanism, and its JSON serialization. -/
structure Operation where
  name : Option String
  immediateUri : Option String
  waitSpec : WaitSpec
  raw : String

/-- A generateVideos submission request as generateVideo builds it. -/
structure SubmitRequest where
  model : String
  prompt : String
  aspectRatio : String
  personGeneration : String
  numberOfVideos : Nat
deriving DecidableEq

/-- Outcome of one fetch in pollForVideo: the fetch or the json decode
throws, or the response is not ok, or it is a parsed body carrying
done, an optional error payload with its optional message, and the
response value. -/
inductive FetchOutcome where
  | fthrow
  | notOk
  | ok (done : Bool) (errorPayload : Option (Option String)) (response : JsVal)
deriving DecidableEq

/-- Outcome of the authenticated asset fetch in fetchVideoAsBlob: the
fetch throws, or responds not-ok with a status code and text, or yields
a blob identified by a number. -/
inductive BlobFetchOutcome where
  | bthrow (msg : String)
  | notOk (status : Nat) (statusText : String)
  | okBlob (blob : Nat)
deriving DecidableEq

/-- Outcome of one operations.get in pollOperationSDK: a thrown call, or
an operation object with done, the uri under its response, and an
optional error payload with its optional message. -/
inductive PollOutcome where
  | pthrow
  | op (done : Bool) (responseUri : Option String) (errorPayload : Option (Option String))
deriving DecidableEq

/-- Environment for the video-generation boundary: submissions keyed by
the full request, poll fetches keyed by url and attempt index, the
asset fetch keyed by url, and the browser object-url registry. -/
structure VeoEnv where
  apiKey : String
  submit : SubmitRequest → Except String Operation
  pollEnv : String → Nat → FetchOutcome
  blobFetch : String → BlobFetchOutcome
  objectUrlOf : Nat → String

/-- Models the browser URL.createObjectURL, which per the File API
always returns a url with the blob scheme. -/
def URL_createObjectURL (env : VeoEnv) (blob : Nat) : String :=
  "blob:" ++ env.objectUrlOf blob

/-- The urlWithKey binding of fetchVideoAsBlob: appends the api key to
the uri unless already present. -/
def urlWithKey (apiKey videoUri : String) : String :=
  if jsIncludes videoUri "key=" then videoUri
  else videoUri ++ (if jsIncludes videoUri "?" then "&" else "?") ++ "key=" ++ apiKey

/-- fetchVideoAsBlob from veoService.ts: appends the api key to the uri
unless already present, fetches it, throws on a not-ok response, and
wraps the blob as an object url. -/
def fetchVideoAsBlob (env : VeoEnv) (videoUri : String) : Except String String :=
  match env.blobFetch (urlWithKey env.apiKey videoUri) with
  | .bthrow msg => .error msg
  | .notOk status statusText =>
    .error ("Failed to fetch video: " ++ toString status ++ " " ++ statusText)
  | .okBlob blob => .ok (URL_createObjectURL env blob)

/-- The REST polling url built by pollForVideo. -/
def pollUrl (apiKey operationName : String) : String :=
  "https://generativelanguage.googleapis.com/v1beta/" ++ operationName ++ "?key=" ++ apiKey

/-- The loop of pollForVideo: at most the given fuel of further
attempts, indices counting up; a thrown fetch, a not-ok response, a
done body with an error payload (whose thrown message the loop's own
catch swallows), and a not-done body all continue; a done body without
error returns its response; exhaustion returns null. -/
def pollFV (f : Nat → FetchOutcome) : Nat → Nat → JsVal
  | _, 0 => .nullV
  | attempt, rem + 1 =>
    match f attempt with
    | .fthrow => pollFV f (attempt + 1) rem
    | .notOk => pollFV f (attempt + 1) rem
    | .ok done errorPayload response =>
      if done then
        match errorPayload with
        | some _ => pollFV f (attempt + 1) rem
        | none => response
      else pollFV f (attempt + 1) rem

/-- pollForVideo from veoService.ts: 120 REST poll attempts against the
operation url. -/
def pollForVideo (env : VeoEnv) (operationName : String) : JsVal :=
  pollFV (env.pollEnv (pollUrl env.apiKey operationName)) 0 120

/-- The loop of pollOperationSDK: at most the given fuel of further
attempts; a thrown get and a not-done operation continue; a done
operation returns completed on a truthy video uri, else failed with the
error payload message or its default, else the no-video failure;
exhaustion returns the pending timeout result. -/
def pollSDK (f : Nat → PollOutcome) (operationName : String) : Nat → Nat → VideoGenerationResult
  | _, 0 => ⟨"", .pending, some operationName, some "Video generation timed out after 10 minutes"⟩
  | attempts, rem + 1 =>
    match f attempts with
    | .pthrow => pollSDK f operationName (attempts + 1) rem
    | .op done responseUri errorPayload =>
      if done then
        match jsTruthyStr responseUri with
        | some uri => ⟨uri, .completed, some operationName, none⟩
        | none =>
          match errorPayload with
          | some m => ⟨"", .failed, some operationName, some (jsOrDefault m "Operation failed")⟩
          | none => ⟨"", .failed, some operationName, some "No video in completed operation"⟩
      else pollSDK f operationName (attempts + 1) rem

/-- pollOperationSDK from veoService.ts: 120 SDK poll attempts. -/
def pollOperationSDK (f : Nat → PollOutcome) (operationName : String) : VideoGenerationResult :=
  pollSDK f operationName 0 120

/-- The videoUri extraction in generateVideo: the generatedVideos uri
or-else the generatedSamples uri, kept only when truthy. -/
def extractUri : JsVal → Option String
  | .obj r =>
    match jsTruthyStr r.gvUri with
    | some s => some s
    | none => jsTruthyStr r.gsUri
  | _ => none

/-- Models the JS expression JSON.stringify x or-else the string
undefined, as applied to a wait or poll result. -/
def jsStringifyOrUndef : JsVal → String
  | .nullV => "null"
  | .undefV => "undefined"
  | .obj r => if r.raw = "" then "undefined" else r.raw

/-- The primary submission request of generateVideo. -/
def primaryRequest (config : VideoGenerationConfig) : SubmitRequest :=
  ⟨"veo-3.1-fast-generate-preview", config.prompt, config.aspectRatio.getD "16:9", "allow_all", 1⟩

/-- The fallback submission request of generateVideo. -/
def fallbackRequest (config : VideoGenerationConfig) : SubmitRequest :=
  ⟨"veo-3.0-generate", config.prompt, config.aspectRatio.getD "16:9", "allow_adult", 1⟩

/-- The submission phase of generateVideo: try the primary model; on a
throw try the fallback model once; if that also throws, rethrow the
original primary error. -/
def submitPhase (env : VeoEnv) (config : VideoGenerationConfig) : Except String Operation :=
  match env.submit (primaryRequest config) with
  | .ok operation => .ok operation
  | .error sdkError =>
    match env.submit (fallbackRequest config) with
    | .ok operation => .ok operation
    | .error _ => .error sdkError

/-- The completion wait of generateVideo for an operation with a truthy
name: its wait method, result field or thenable if available, otherwise
the manual pollForVideo. -/
def waitResult (env : VeoEnv) (op : Operation) (opName : String) : Except String JsVal :=
  match op.waitSpec with
  | .waitFn r => r
  | .resultField r => r
  | .thenable r => r
  | .manualPoll => .ok (pollForVideo env opName)

/-- The result handling of generateVideo after the wait: a truthy video
uri is fetched into a blob url and returned completed; otherwise the
no-video failure with the truncated serialized result. -/
def afterWait (env : VeoEnv) (opName : String) (res : JsVal) : Except String VideoGenerationResult :=
  match extractUri res with
  | some uri =>
    match fetchVideoAsBlob env uri with
    | .error e => .error e
    | .ok blobUrl => .ok ⟨blobUrl, .completed, some opName, none⟩
  | none =>
    .ok ⟨"", .failed, some opName,
      some ("No video in completed operation: " ++ jsSubstringTo (jsStringifyOrUndef res) 400)⟩

/-- The operation handling of generateVideo: a truthy operation name
leads to the wait and result handling; otherwise a truthy immediate uri
is returned completed; otherwise the unexpected-response failure with
the truncated serialized operation. -/
def processOperation (env : VeoEnv) (op : Operation) : Except String VideoGenerationResult :=
  match jsTruthyStr op.name with
  | some opName =>
    match waitResult env op opName with
    | .error e => .error e
    | .ok res => afterWait env opName res
  | none =>
    match jsTruthyStr op.immediateUri with
    | some uri => .ok ⟨uri, .completed, none, none⟩
    | none =>
      .ok ⟨"", .failed, none, some ("Unexpected SDK response: " ++ jsSubstringTo op.raw 400)⟩

/-- The catch block of generateVideo: a message mentioning
predictLongRunning or 404 is wrapped in the api-unavailability text,
any other message is surfaced as the failed result's error. -/
def catchHandler (errorMsg : String) : VideoGenerationResult :=
  if jsIncludes errorMsg "predictLongRunning" || jsIncludes errorMsg "404" then
    ⟨"", .failed, none,
      some ("Veo API not available via SDK. The model may require Vertex AI authentication or Google AI Studio web interface. Error: " ++ errorMsg)⟩
  else ⟨"", .failed, none, some errorMsg⟩

/-- Folds a thrown error into the catch block's failed result. -/
def runCatch : Except String VideoGenerationResult → VideoGenerationResult
  | .ok r => r
  | .error e => catchHandler e

/-- The try block of generateVideo: submission with one fallback, then
operation handling; any thrown error propagates to the catch. -/
def generateVideoTry (env : VeoEnv) (config : VideoGenerationConfig) : Except String VideoGenerationResult :=
  match submitPhase env config with
  | .error e => .error e
  | .ok operation => processOperation env operation

/-- generateVideo from veoService.ts: the try block under the catch
that converts every thrown error into a failed result. -/
def generateVideo (env : VeoEnv) (config : VideoGenerationConfig) : VideoGenerationResult :=
  runCatch (generateVideoTry env config)

/- ## App.tsx, the generation status controller -/

/-- GenerationStatus union from App.tsx. -/
inductive GenerationStatus where
  | idle
  | fetchingTheme
  | generatingScript
  | generatingVideo
  | completed
  | error
deriving DecidableEq

/-- The Nebzmart-G cinematic ad prompt literal from App.tsx. -/
def NEBZMART_PROMPT : String :=
  "Create a single continuous 8-second cinematic video advertisement in a photorealistic medical-commercial style.\n\nSCENE:\nA middle-aged Indian male patient wearing a blue shirt, shown from mid-torso up, standing indoors in a clean, softly lit clinical environment. He appears calm, relieved, and breathing comfortably from the very start.\n\nTIMING AND ACTION (NO CUTS, ONE CONTINUOUS SHOT):\n\nSeconds 0‚Äì2:\nThe man gently inhales and exhales with ease. His shoulders are relaxed and his expression shows quiet relief. The camera begins a slow, smooth cinematic push-in toward his chest.\n\nSeconds 2‚Äì5:\nA medical visual metaphor appears. Soft, glowing white linear circles and rings emerge from the center of his chest and expand outward smoothly. The circles are semi-transparent, elegant, clinical, and reassuring, symbolizing airways opening and fast relief. The lighting remains warm and calming.\n\nSeconds 5‚Äì7:\nThe white circles stabilize and pulse once subtly, indicating sustained relief over time. The man looks confident and comfortable. The camera push-in slows further.\n\nSeconds 7‚Äì8:\nClean on-screen text fades in sharply while the scene holds steady.\n\nON-SCREEN TEXT (final second only):\nPrimary text: \"Nebzmart-G\"\nSecondary text below: \"Relief in 5 mins. Lasts 12 hrs.\"\n\nVOICEOVER:\nCalm, confident male voice with Indian English accent:\n\"Nebzmart-G gives relief in just five minutes, and keeps you breathing easy for up to twelve hours.\"\n\nSTYLE:\nPhotorealistic, high-end pharmaceutical commercial.\nSoft diffused lighting, natural skin tones.\nSlow cinematic camera movement.\nNo cluttered background.\nOne continuous shot only.\nClearly visible white expanding circles on the chest.\nExact duration: 8 seconds."

/-- The fixed literal script that handleGenerateVideo substitutes in
custom-prompt mode, from App.tsx. -/
def nebzmartScript : VideoScript :=
  ⟨"Nebzmart-G - Relief in 5 mins", 8,
    [⟨0, 2, "Man breathing comfortably, camera push-in", ""⟩,
     ⟨2, 5, "White circles emerge from chest, symbolizing airways opening", ""⟩,
     ⟨5, 7, "Circles stabilize and pulse, man looks confident", ""⟩,
     ⟨7, 8, "Text overlay fades in", "Nebzmart-G\nRelief in 5 mins. Lasts 12 hrs."⟩],
    "Nebzmart-G gives relief in just five minutes, and keeps you breathing easy for up to twelve hours.",
    NEBZMART_PROMPT⟩

/-- How handleGenerateVideo folds the pipeline result into the
controller state while in the generating-video status: the new status
and error message, from App.tsx lines 138 to 148. -/
def handleGenerateVideoResult (result : VideoGenerationResult) : GenerationStatus × String :=
  match result.status with
  | .completed => (.completed, "")
  | .failed => (.error, jsOrDefault result.error "Video generation failed")
  | .pending => (.error, "Video generation is still pending")

/-- Scene-chain check: starting from the first time, every scene starts
where the previous one ended, strictly advances, and the last scene
ends at the given duration; this is the contiguous, non-overlapping,
covering property over the interval from the start time to the
duration. -/
def scenesCoverB (t dur : Int) : List Scene → Bool
  | [] => t == dur
  | s :: rest => (s.timeStart == t) && decide (s.timeStart < s.timeEnd) && scenesCoverB s.timeEnd dur rest

/- ## Theorems -/

/-- Unpacks non-membership in the theme catalog into the five
inequalities used by the branching definitions. -/
theorem notKnown_ne (tid : String) (hk : isKnownTheme tid = false) :
    tid ≠ "safety" ∧ tid ≠ "efficacy" ∧ tid ≠ "brand" ∧ tid ≠ "mechanism" ∧ tid ≠ "patient" := by
  simp [isKnownTheme, THEME_CATEGORIES] at hk
  refine ⟨fun h => ?_, fun h => ?_, fun h => ?_, fun h => ?_, fun h => ?_⟩ <;> subst h <;> simp_all

/-- Unpacks membership in the theme catalog into the five-way
disjunction over the known identifiers. -/
theorem known_cases (tid : String) (hk : isKnownTheme tid = true) :
    tid = "safety" ∨ tid = "efficacy" ∨ tid = "brand" ∨ tid = "mechanism" ∨ tid = "patient" := by
  simp [isKnownTheme, THEME_CATEGORIES] at hk
  rcases hk with h | h | h | h | h <;> simp [h.symm]

/-- Counterexample to C7: for an unknown theme identifier the query
still runs against the Safety section, and when it succeeds with rows,
fetchThemeComponents returns the mapped database rows, not the safety
fallback list. -/
theorem c7_counterexample :
    fetchThemeComponents ⟨fun _ => .ok ⟨some [⟨"X1", "XName", some "XDesc", some "Safety"⟩], none⟩⟩
        "nosuch-theme" = [⟨"X1", "XName", "XDesc", "Safety"⟩] ∧
    isKnownTheme "nosuch-theme" = false ∧
    [ComponentData.mk "X1" "XName" "XDesc" "Safety"] ≠ getFallbackComponents "nosuch-theme" := by
  refine ⟨by decide, by decide, by decide⟩

/-- C7 (amended): for every theme identifier outside the known set the
section defaults to Safety and the fallback table defaults to the
non-empty safety list; whenever the query throws, reports an error, or
yields null or zero rows, fetchThemeComponents returns that safety
fallback list, and it never throws: when the query succeeds with rows
it instead returns the mapped rows for the Safety section. -/
theorem c7_claim (env : DbEnv) (tid : String) (hk : isKnownTheme tid = false) :
    sectionFor tid = "Safety" ∧
    getFallbackComponents tid = safetyFallback ∧
    safetyFallback ≠ [] ∧
    (∀ e, env.query "Safety" = .error e → fetchThemeComponents env tid = safetyFallback) ∧
    (∀ qr, env.query "Safety" = .ok qr →
      (qr.error.isSome ∨ qr.data = none ∨ qr.data = some []) →
      fetchThemeComponents env tid = safetyFallback) ∧
    (∀ r rs, env.query "Safety" = .ok ⟨some (r :: rs), none⟩ →
      fetchThemeComponents env tid = (r :: rs).map (mapRow "Safety")) := by
  obtain ⟨h1, h2, h3, h4, h5⟩ := notKnown_ne tid hk
  have hs : sectionFor tid = "Safety" := by simp [sectionFor, h1, h2, h3, h4, h5]
  have hf : getFallbackComponents tid = safetyFallback := by
    simp [getFallbackComponents, h1, h2, h3, h4, h5]
  refine ⟨hs, hf, by decide, ?_, ?_, ?_⟩
  · intro e he
    simp [fetchThemeComponents, hs, he, hf]
  · rintro ⟨d, er⟩ hq hcase
    rcases hcase with h | h | h
    · simp [fetchThemeComponents, hs, hq, h, hf]
    · simp only at h
      subst h
      cases er <;> simp [fetchThemeComponents, hs, hq, hf]
    · simp only at h
      subst h
      cases er <;> simp [fetchThemeComponents, hs, hq, hf]
  · intro r rs hq
    simp [fetchThemeComponents, hs, hq]

/-- Witness for C7: a concrete unknown identifier with a throwing query
receives the safety fallback list. -/
theorem c7_witness :
    fetchThemeComponents ⟨fun _ => .error "down"⟩ "zzz" = safetyFallback :=
  (c7_claim ⟨fun _ => .error "down"⟩ "zzz" (by decide)).2.2.2.1 "down" rfl

/-- C10: for every known theme identifier, a query that succeeds with
zero rows makes fetchThemeComponents return that theme's non-empty
static fallback list, the same value a failing query produces, so the
two cases are indistinguishable at the public interface. -/
theorem c10_claim (tid : String) (env env2 : DbEnv) (e : String)
    (hk : isKnownTheme tid = true)
    (hq : env.query (sectionFor tid) = .ok ⟨some [], none⟩)
    (hq2 : env2.query (sectionFor tid) = .error e) :
    fetchThemeComponents env tid = getFallbackComponents tid ∧
    getFallbackComponents tid ≠ [] ∧
    fetchThemeComponents env tid = fetchThemeComponents env2 tid := by
  have ha : fetchThemeComponents env tid = getFallbackComponents tid := by
    simp [fetchThemeComponents, hq]
  have hb : fetchThemeComponents env2 tid = getFallbackComponents tid := by
    simp [fetchThemeComponents, hq2]
  refine ⟨ha, ?_, ha.trans hb.symm⟩
  rcases known_cases tid hk with h | h | h | h | h <;> subst h <;> decide

/-- Witness for C10: the safety theme with a concrete empty-success
query and a concrete failing query. -/
theorem c10_witness :
    fetchThemeComponents ⟨fun _ => .ok ⟨some [], none⟩⟩ "safety" = getFallbackComponents "safety" ∧
    getFallbackComponents "safety" ≠ [] ∧
    fetchThemeComponents ⟨fun _ => .ok ⟨some [], none⟩⟩ "safety" =
      fetchThemeComponents ⟨fun _ => .error "down"⟩ "safety" :=
  c10_claim "safety" ⟨fun _ => .ok ⟨some [], none⟩⟩ ⟨fun _ => .error "down"⟩ "down" (by decide) rfl rfl

/-- Counterexample to C6: a response that is valid JSON but lacks every
required VideoScript field, such as the empty object, is returned
unchanged by generateVideoScript instead of failing. -/
theorem c6_counterexample :
    generateVideoScript
        ⟨fun _ => .ok "\x7b\x7d", fun s => if s = "\x7b\x7d" then .ok (Json.obj []) else .error "bad"⟩
        "Safety" "Dosage, side effects, contraindications" [] 8 = .ok (Json.obj []) ∧
    jsonHasField (Json.obj []) "title" = false :=
  ⟨rfl, rfl⟩

/-- C6 (amended): generateVideoScript fails exactly when the generation
call throws or the response text is not valid JSON, and that raw error
propagates to the caller unchanged with no fallback script; when the
text parses, the parsed value is returned as-is with no field
validation, so a value missing required VideoScript fields is still
returned. -/
theorem c6_claim (env : ScriptEnv) (tn td : String) (comps : List ComponentData) (dur : Int) :
    (∀ e, env.generateContent (scriptRequest tn td comps dur) = .error e →
      generateVideoScript env tn td comps dur = .error e) ∧
    (∀ t pe, env.generateContent (scriptRequest tn td comps dur) = .ok t →
      env.jsonParse t = .error pe → generateVideoScript env tn td comps dur = .error pe) ∧
    (∀ t j, env.generateContent (scriptRequest tn td comps dur) = .ok t →
      env.jsonParse t = .ok j → generateVideoScript env tn td comps dur = .ok j) := by
  refine ⟨?_, ?_, ?_⟩
  · intro e he
    simp only [scriptRequest] at he
    simp only [generateVideoScript, he]
  · intro t pe ht hp
    simp only [scriptRequest] at ht
    simp only [generateVideoScript, ht, hp]
  · intro t j ht hp
    simp only [scriptRequest] at ht
    simp only [generateVideoScript, ht, hp]

/-- Witness for C6: a concrete environment whose parse throws sees that
same error surface from generateVideoScript. -/
theorem c6_witness :
    generateVideoScript
        ⟨fun _ => .ok "not json", fun _ => .error "SyntaxError: Unexpected token"⟩
        "Safety" "D" [] 8 = .error "SyntaxError: Unexpected token" :=
  (c6_claim ⟨fun _ => .ok "not json", fun _ => .error "SyntaxError: Unexpected token"⟩
    "Safety" "D" [] 8).2.1 "not json" "SyntaxError: Unexpected token" rfl rfl

/-- A scene object of a parsed generation response. -/
def sceneJson (a b : Int) : Json :=
  .obj [("timeStart", .num a), ("timeEnd", .num b), ("visual", .str "v"), ("text", .str "")]

/-- A parsed generation response whose scenes leave the gap from second
3 to second 5 of its 8-second duration. -/
def gapScriptJson : Json :=
  .obj [("title", .str "t"), ("duration", .num 8),
        ("scenes", .arr [sceneJson 0 3, sceneJson 5 8]),
        ("voiceover", .str "vo"), ("prompt", .str "p")]

/-- Counterexample to C8: a script built by parsing a generation
response is not validated, so generateVideoScript returns a script
whose scenes are not contiguous and do not cover the duration. -/
theorem c8_counterexample :
    generateVideoScript ⟨fun _ => .ok "payload", fun _ => .ok gapScriptJson⟩ "T" "D" [] 8 =
      .ok gapScriptJson ∧
    asVideoScript gapScriptJson = some ⟨"t", 8, [⟨0, 3, "v", ""⟩, ⟨5, 8, "v", ""⟩], "vo", "p"⟩ ∧
    scenesCoverB 0 8 [⟨0, 3, "v", ""⟩, ⟨5, 8, "v", ""⟩] = false :=
  ⟨rfl, rfl, by decide⟩

/-- C8 (amended): the fixed literal script substituted in custom-prompt
mode has contiguous, non-overlapping scenes covering exactly the
interval from 0 to its 8-second duration, with the 4 scenes spanning
0-2, 2-5, 5-7 and 7-8 seconds; scripts built by parsing a generation
response carry no such guarantee since no validation is performed. -/
theorem c8_claim :
    scenesCoverB 0 nebzmartScript.duration nebzmartScript.scenes = true ∧
    nebzmartScript.duration = 8 ∧
    nebzmartScript.scenes.map (fun s => (s.timeStart, s.timeEnd)) = [(0, 2), (2, 5), (5, 7), (7, 8)] := by
  refine ⟨by decide, by decide, by decide⟩

/-- A truthy optional string is never empty. -/
theorem jsTruthyStr_ne (o : Option String) (s : String) (h : jsTruthyStr o = some s) : s ≠ "" := by
  cases o with
  | none => exact absurd h (by simp [jsTruthyStr])
  | some t =>
    rw [show jsTruthyStr (some t) = if t = "" then none else some t from rfl] at h
    by_cases ht : t = ""
    · rw [if_pos ht] at h
      exact absurd h (by simp)
    · rw [if_neg ht] at h
      injection h with h2
      subst h2
      exact ht

/-- An object url is never the empty string. -/
theorem createObjectURL_ne (env : VeoEnv) (b : Nat) : URL_createObjectURL env b ≠ "" := by
  unfold URL_createObjectURL
  intro h
  have h2 : ("blob:" ++ env.objectUrlOf b).length = ("" : String).length := by rw [h]
  rw [String.length_append] at h2
  have h3 : ("blob:" : String).length = 5 := rfl
  have h4 : ("" : String).length = 0 := rfl
  omega

/-- A successful asset fetch returns a non-empty blob url. -/
theorem fetchVideoAsBlob_ok_ne (env : VeoEnv) (u s : String)
    (h : fetchVideoAsBlob env u = .ok s) : s ≠ "" := by
  unfold fetchVideoAsBlob at h
  cases hb : env.blobFetch (urlWithKey env.apiKey u) with
  | bthrow msg => rw [hb] at h; exact absurd h (by simp)
  | notOk st stx => rw [hb] at h; exact absurd h (by simp)
  | okBlob blob =>
    rw [hb] at h
    injection h with h2
    subst h2
    exact createObjectURL_ne env blob

/-- The result-shape invariant of the pipeline: a completed result has a
non-empty video url, a failed or pending result has the empty url. -/
def resInv (r : VideoGenerationResult) : Prop :=
  (r.status = .completed → r.videoUrl ≠ "") ∧
  ((r.status = .failed ∨ r.status = .pending) → r.videoUrl = "")

/-- The catch block's failed results satisfy the shape invariant. -/
theorem catchHandler_inv (e : String) : resInv (catchHandler e) := by
  unfold catchHandler resInv
  split <;> simp

/-- Results of the post-wait handling satisfy the shape invariant. -/
theorem afterWait_inv (env : VeoEnv) (opName : String) (res : JsVal) (r : VideoGenerationResult)
    (h : afterWait env opName res = .ok r) : resInv r := by
  unfold afterWait at h
  split at h
  · rename_i uri hx
    split at h
    · exact absurd h (by simp)
    · rename_i blobUrl hb
      injection h with h2
      subst h2
      exact ⟨fun _ => fetchVideoAsBlob_ok_ne env uri blobUrl hb, by simp⟩
  · injection h with h2
    subst h2
    simp [resInv]

/-- Results of the operation handling satisfy the shape invariant. -/
theorem processOperation_inv (env : VeoEnv) (op : Operation) (r : VideoGenerationResult)
    (h : processOperation env op = .ok r) : resInv r := by
  unfold processOperation at h
  split at h
  · rename_i opName hn
    split at h
    · exact absurd h (by simp)
    · rename_i res hw
      exact afterWait_inv env opName res r h
  · rename_i hn
    split at h
    · rename_i uri hu
      injection h with h2
      subst h2
      exact ⟨fun _ => jsTruthyStr_ne _ _ hu, by simp⟩
    · injection h with h2
      subst h2
      simp [resInv]

/-- Every result generateVideo returns satisfies the shape invariant. -/
theorem generateVideo_inv (env : VeoEnv) (config : VideoGenerationConfig) :
    resInv (generateVideo env config) := by
  unfold generateVideo generateVideoTry
  cases hs : submitPhase env config with
  | error e => simp only [runCatch]; exact catchHandler_inv e
  | ok op =>
    cases hp : processOperation env op with
    | error e => simp only [hp, runCatch]; exact catchHandler_inv e
    | ok r =>
      simp only [hp, runCatch]
      exact processOperation_inv env op r hp

/-- Every result the SDK polling loop returns satisfies the shape
invariant, whatever the attempt budget and starting index. -/
theorem pollSDK_inv (f : Nat → PollOutcome) (name : String) :
    ∀ rem attempts, resInv (pollSDK f name attempts rem) := by
  intro rem
  induction rem with
  | zero => intro attempts; simp [pollSDK, resInv]
  | succ n ih =>
    intro attempts
    unfold pollSDK
    cases hf : f attempts with
    | pthrow => exact ih (attempts + 1)
    | op done uri err =>
      cases done with
      | false => simp only [if_neg (by simp : ¬(false = true))]; exact ih (attempts + 1)
      | true =>
        simp only [if_pos rfl]
        cases hu : jsTruthyStr uri with
        | some s => exact ⟨fun _ => jsTruthyStr_ne _ _ hu, by simp⟩
        | none => cases err <;> simp [resInv]

/-- C9: every result the pipeline constructs has a non-empty video url
when its status is completed, and the empty string as its video url
when its status is failed or pending; this holds for generateVideo and
for the SDK polling loop. -/
theorem c9_claim (env : VeoEnv) (config : VideoGenerationConfig)
    (f : Nat → PollOutcome) (name : String) :
    ((generateVideo env config).status = .completed → (generateVideo env config).videoUrl ≠ "") ∧
    (((generateVideo env config).status = .failed ∨ (generateVideo env config).status = .pending) →
      (generateVideo env config).videoUrl = "") ∧
    ((pollOperationSDK f name).status = .completed → (pollOperationSDK f name).videoUrl ≠ "") ∧
    (((pollOperationSDK f name).status = .failed ∨ (pollOperationSDK f name).status = .pending) →
      (pollOperationSDK f name).videoUrl = "") := by
  obtain ⟨a, b⟩ := generateVideo_inv env config
  obtain ⟨c, d⟩ := pollSDK_inv f name 120 0
  exact ⟨a, b, c, d⟩

/-- Witness for C9: a failed pipeline run and a timed-out poll both
carry the empty video url. -/
theorem c9_witness :
    (generateVideo ⟨"k", fun _ => .error "boom", fun _ _ => .fthrow, fun _ => .bthrow "x",
        fun _ => "u"⟩ ⟨"p", some 8, some "16:9"⟩).videoUrl = "" ∧
    (pollOperationSDK (fun _ => .pthrow) "op").videoUrl = "" :=
  ⟨(c9_claim ⟨"k", fun _ => .error "boom", fun _ _ => .fthrow, fun _ => .bthrow "x",
      fun _ => "u"⟩ ⟨"p", some 8, some "16:9"⟩ (fun _ => .pthrow) "op").2.1 (Or.inl (by decide)),
   (c9_claim ⟨"k", fun _ => .error "boom", fun _ _ => .fthrow, fun _ => .bthrow "x",
      fun _ => "u"⟩ ⟨"p", some 8, some "16:9"⟩ (fun _ => .pthrow) "op").2.2.2 (Or.inr (by decide))⟩

/-- C2: while the controller is in the generating-video state, the
status it adopts for a pipeline result is completed only when that
result is tagged completed and carries a non-empty video url, and the
status is error whenever the result is tagged failed or pending. -/
theorem c2_claim (env : VeoEnv) (config : VideoGenerationConfig) :
    ((handleGenerateVideoResult (generateVideo env config)).fst = .completed →
      (generateVideo env config).status = .completed ∧ (generateVideo env config).videoUrl ≠ "") ∧
    (((generateVideo env config).status = .failed ∨ (generateVideo env config).status = .pending) →
      (handleGenerateVideoResult (generateVideo env config)).fst = .error) := by
  obtain ⟨hc, _⟩ := generateVideo_inv env config
  constructor
  · intro h
    cases hst : (generateVideo env config).status with
    | completed => exact ⟨rfl, hc hst⟩
    | failed => simp [handleGenerateVideoResult, hst] at h
    | pending => simp [handleGenerateVideoResult, hst] at h
  · intro h
    rcases h with h | h <;> simp [handleGenerateVideoResult, h]

/-- Witness for C2: a concrete failed pipeline result drives the
controller to the error status. -/
theorem c2_witness :
    (handleGenerateVideoResult (generateVideo ⟨"k", fun _ => .error "down", fun _ _ => .fthrow,
        fun _ => .bthrow "x", fun _ => "u"⟩ ⟨"p", none, none⟩)).fst = GenerationStatus.error :=
  (c2_claim ⟨"k", fun _ => .error "down", fun _ _ => .fthrow, fun _ => .bthrow "x",
    fun _ => "u"⟩ ⟨"p", none, none⟩).2 (Or.inl (by decide))

/-- A poll outcome in which the operation is not observed done. -/
def notDoneSDK : PollOutcome → Prop
  | .pthrow => True
  | .op done _ _ => done = false

/-- A REST poll outcome in which no done body is observed. -/
def notDoneFV : FetchOutcome → Prop
  | .fthrow => True
  | .notOk => True
  | .ok done _ _ => done = false

/-- The SDK polling loop only consults outcomes of the attempts within
its budget: environments agreeing there produce the same result. -/
theorem pollSDK_agree (f g : Nat → PollOutcome) (name : String) :
    ∀ rem attempts, (∀ i, attempts ≤ i → i < attempts + rem → f i = g i) →
    pollSDK f name attempts rem = pollSDK g name attempts rem := by
  intro rem
  induction rem with
  | zero => intro attempts _; rfl
  | succ n ih =>
    intro attempts hagree
    have h0 : f attempts = g attempts := hagree attempts le_rfl (by omega)
    cases hg : g attempts with
    | pthrow =>
      have hf : f attempts = .pthrow := h0.trans hg
      unfold pollSDK
      rw [hf, hg]
      exact ih (attempts + 1) fun i h1 h2 => hagree i (by omega) (by omega)
    | op done uri err =>
      have hf : f attempts = .op done uri err := h0.trans hg
      unfold pollSDK
      rw [hf, hg]
      cases done with
      | true => rfl
      | false => exact ih (attempts + 1) fun i h1 h2 => hagree i (by omega) (by omega)

/-- If no attempt within the budget observes a done operation, the SDK
polling loop runs its budget down and returns the pending timeout
result. -/
theorem pollSDK_timeout (f : Nat → PollOutcome) (name : String) :
    ∀ rem attempts, (∀ i, attempts ≤ i → i < attempts + rem → notDoneSDK (f i)) →
    pollSDK f name attempts rem =
      ⟨"", .pending, some name, some "Video generation timed out after 10 minutes"⟩ := by
  intro rem
  induction rem with
  | zero => intro attempts _; rfl
  | succ n ih =>
    intro attempts hnd
    have h0 : notDoneSDK (f attempts) := hnd attempts le_rfl (by omega)
    cases hf : f attempts with
    | pthrow =>
      unfold pollSDK
      rw [hf]
      exact ih (attempts + 1) fun i h1 h2 => hnd i (by omega) (by omega)
    | op done uri err =>
      rw [hf] at h0
      have hd : done = false := h0
      subst hd
      unfold pollSDK
      rw [hf]
      exact ih (attempts + 1) fun i h1 h2 => hnd i (by omega) (by omega)

/-- The REST polling loop only consults outcomes of the attempts within
its budget: environments agreeing there produce the same result. -/
theorem pollFV_agree (p q : Nat → FetchOutcome) :
    ∀ rem attempts, (∀ i, attempts ≤ i → i < attempts + rem → p i = q i) →
    pollFV p attempts rem = pollFV q attempts rem := by
  intro rem
  induction rem with
  | zero => intro attempts _; rfl
  | succ n ih =>
    intro attempts hagree
    have h0 : p attempts = q attempts := hagree attempts le_rfl (by omega)
    cases hq : q attempts with
    | fthrow =>
      have hp : p attempts = .fthrow := h0.trans hq
      unfold pollFV
      rw [hp, hq]
      exact ih (attempts + 1) fun i h1 h2 => hagree i (by omega) (by omega)
    | notOk =>
      have hp : p attempts = .notOk := h0.trans hq
      unfold pollFV
      rw [hp, hq]
      exact ih (attempts + 1) fun i h1 h2 => hagree i (by omega) (by omega)
    | ok done err resp =>
      have hp : p attempts = .ok done err resp := h0.trans hq
      unfold pollFV
      rw [hp, hq]
      cases done with
      | true =>
        cases err with
        | some m => exact ih (attempts + 1) fun i h1 h2 => hagree i (by omega) (by omega)
        | none => rfl
      | false => exact ih (attempts + 1) fun i h1 h2 => hagree i (by omega) (by omega)

/-- If no attempt within the budget observes a done body, the REST
polling loop runs its budget down and returns null. -/
theorem pollFV_nullV (p : Nat → FetchOutcome) :
    ∀ rem attempts, (∀ i, attempts ≤ i → i < attempts + rem → notDoneFV (p i)) →
    pollFV p attempts rem = .nullV := by
  intro rem
  induction rem with
  | zero => intro attempts _; rfl
  | succ n ih =>
    intro attempts hnd
    have h0 : notDoneFV (p attempts) := hnd attempts le_rfl (by omega)
    cases hp : p attempts with
    | fthrow =>
      unfold pollFV
      rw [hp]
      exact ih (attempts + 1) fun i h1 h2 => hnd i (by omega) (by omega)
    | notOk =>
      unfold pollFV
      rw [hp]
      exact ih (attempts + 1) fun i h1 h2 => hnd i (by omega) (by omega)
    | ok done err resp =>
      rw [hp] at h0
      have hd : done = false := h0
      subst hd
      unfold pollFV
      rw [hp]
      exact ih (attempts + 1) fun i h1 h2 => hnd i (by omega) (by omega)

/-- Counterexample to C1: a submission that returns an operation handle
whose completion is polled through pollForVideo, with an operation that
never reports done, makes the pipeline return a result tagged failed
with the no-video message, not a result tagged pending with a timeout
message. -/
theorem c1_counterexample :
    generateVideo
        ⟨"k",
          fun req => if req.model = "veo-3.1-fast-generate-preview"
            then .ok ⟨some "op1", none, .manualPoll, "r"⟩ else .error "no",
          fun _ _ => .ok false none .undefV,
          fun _ => .bthrow "x", fun _ => "u"⟩
        ⟨"p", some 8, some "16:9"⟩ =
      ⟨"", .failed, some "op1", some "No video in completed operation: null"⟩ ∧
    VideoStatus.failed ≠ VideoStatus.pending :=
  ⟨by decide, by decide⟩

/-- C1 (amended): each polling loop consults at most 120 poll outcomes,
so its result depends only on the first 120 attempts; when no attempt
observes done, pollOperationSDK stops and returns the pending result
with the ten-minute timeout message, while pollForVideo stops and
returns null, which the pipeline folds into the no-video failed
result. -/
theorem c1_claim (f g : Nat → PollOutcome) (p q : Nat → FetchOutcome) (name : String) :
    ((∀ i, i < 120 → f i = g i) → pollOperationSDK f name = pollOperationSDK g name) ∧
    ((∀ i, i < 120 → notDoneSDK (f i)) →
      pollOperationSDK f name =
        ⟨"", .pending, some name, some "Video generation timed out after 10 minutes"⟩) ∧
    ((∀ i, i < 120 → p i = q i) → pollFV p 0 120 = pollFV q 0 120) ∧
    (∀ (env : VeoEnv) (opName : String),
      (∀ i, i < 120 → notDoneFV (env.pollEnv (pollUrl env.apiKey opName) i)) →
      pollForVideo env opName = .nullV) := by
  refine ⟨?_, ?_, ?_, ?_⟩
  · intro h
    exact pollSDK_agree f g name 120 0 fun i _ h2 => h i (by omega)
  · intro h
    exact pollSDK_timeout f name 120 0 fun i _ h2 => h i (by omega)
  · intro h
    exact pollFV_agree p q 120 0 fun i _ h2 => h i (by omega)
  · intro env opName h
    exact pollFV_nullV (env.pollEnv (pollUrl env.apiKey opName)) 120 0 fun i _ h2 => h i (by omega)

/-- Witness for C1: a concrete never-done SDK poll environment yields
the pending timeout result, and a concrete never-done REST poll
environment yields null. -/
theorem c1_witness :
    pollOperationSDK (fun _ => .pthrow) "op" =
      ⟨"", .pending, some "op", some "Video generation timed out after 10 minutes"⟩ ∧
    pollForVideo ⟨"k", fun _ => .error "e", fun _ _ => .ok false none .undefV,
      fun _ => .bthrow "x", fun _ => "u"⟩ "op" = .nullV :=
  ⟨(c1_claim (fun _ => .pthrow) (fun _ => .pthrow) (fun _ => .notOk) (fun _ => .notOk)
      "op").2.1 fun _ _ => trivial,
   (c1_claim (fun _ => .pthrow) (fun _ => .pthrow) (fun _ => .notOk) (fun _ => .notOk)
      "op").2.2.2
      ⟨"k", fun _ => .error "e", fun _ _ => .ok false none .undefV, fun _ => .bthrow "x",
        fun _ => "u"⟩ "op" fun _ _ => rfl⟩

/-- If the first done observation of the SDK polling loop carries an
error payload and no truthy video uri, the loop stops there with the
failed result carrying the payload message or its default. -/
theorem pollSDK_done_error (f : Nat → PollOutcome) (name : String) (i : Nat)
    (uri : Option String) (m : Option String)
    (hf : f i = .op true uri (some m)) (hu : jsTruthyStr uri = none) :
    ∀ rem attempts, attempts ≤ i → i < attempts + rem →
    (∀ j, attempts ≤ j → j < i → notDoneSDK (f j)) →
    pollSDK f name attempts rem =
      ⟨"", .failed, some name, some (jsOrDefault m "Operation failed")⟩ := by
  intro rem
  induction rem with
  | zero => intro attempts hle hlt _; omega
  | succ n ih =>
    intro attempts hle hlt hnd
    rcases eq_or_lt_of_le hle with heq | hlt2
    · subst heq
      unfold pollSDK
      rw [hf]
      simp [hu]
    · have h0 : notDoneSDK (f attempts) := hnd attempts le_rfl hlt2
      cases hfa : f attempts with
      | pthrow =>
        unfold pollSDK
        rw [hfa]
        exact ih (attempts + 1) (by omega) (by omega) fun j hj1 hj2 => hnd j (by omega) hj2
      | op d u e =>
        rw [hfa] at h0
        have hd : d = false := h0
        subst hd
        unfold pollSDK
        rw [hfa]
        exact ih (attempts + 1) (by omega) (by omega) fun j hj1 hj2 => hnd j (by omega) hj2

/-- Counterexample to C5: an operation that reports done together with
an error payload carrying the message boom, polled through
pollForVideo, neither terminates polling at that iteration nor
surfaces the payload message: the loop swallows the thrown payload,
keeps polling to exhaustion, and the pipeline returns the no-video
failure instead. -/
theorem c5_counterexample :
    generateVideo
        ⟨"k",
          fun req => if req.model = "veo-3.1-fast-generate-preview"
            then .ok ⟨some "op1", none, .manualPoll, "r"⟩ else .error "no",
          fun _ _ => .ok true (some (some "boom")) .undefV,
          fun _ => .bthrow "x", fun _ => "u"⟩
        ⟨"p", some 8, some "16:9"⟩ =
      ⟨"", .failed, some "op1", some "No video in completed operation: null"⟩ ∧
    some "No video in completed operation: null" ≠ some "boom" :=
  ⟨by decide, by decide⟩

/-- C5 (amended): in pollOperationSDK, the first done observation that
carries an error payload and no truthy video reference terminates the
loop immediately with a failed result whose message is the payload
message, or the literal Operation failed when that message is absent
or empty; a done observation with a truthy video reference wins over
the error payload; in pollForVideo, a done body with an error payload
is swallowed by the loop's own catch and polling simply continues with
the next attempt. -/
theorem c5_claim (f : Nat → PollOutcome) (p : Nat → FetchOutcome) (name : String) (i : Nat)
    (uri : Option String) (m : Option String) :
    (i < 120 → (∀ j, j < i → notDoneSDK (f j)) → f i = .op true uri (some m) →
      jsTruthyStr uri = none →
      pollOperationSDK f name = ⟨"", .failed, some name, some (jsOrDefault m "Operation failed")⟩) ∧
    (∀ s, jsTruthyStr uri = some s → f i = .op true uri (some m) → i = 0 →
      pollOperationSDK f name = ⟨s, .completed, some name, none⟩) ∧
    (∀ attempt rem m2 resp, p attempt = .ok true (some m2) resp →
      pollFV p attempt (rem + 1) = pollFV p (attempt + 1) rem) := by
  refine ⟨?_, ?_, ?_⟩
  · intro hlt hnd hf hu
    exact pollSDK_done_error f name i uri m hf hu 120 0 (by omega) (by omega)
      fun j hj1 hj2 => hnd j hj2
  · intro s hs hf hi
    subst hi
    unfold pollOperationSDK pollSDK
    rw [hf]
    simp [hs]
  · intro attempt rem m2 resp hp
    conv_lhs => rw [pollFV]
    rw [hp]
    rfl

/-- Witness for C5: a first poll observing done with payload message
boom and no video uri yields the failed result carrying boom from
pollOperationSDK, while pollForVideo under a done-with-error body
merely advances to the next attempt. -/
theorem c5_witness :
    pollOperationSDK (fun _ => .op true none (some (some "boom"))) "op" =
      ⟨"", .failed, some "op", some "boom"⟩ ∧
    pollFV (fun _ => .ok true (some (some "boom")) .undefV) 0 120 =
      pollFV (fun _ => .ok true (some (some "boom")) .undefV) 1 119 :=
  ⟨(c5_claim (fun _ => .op true none (some (some "boom")))
      (fun _ => .ok true (some (some "boom")) .undefV) "op" 0 none (some "boom")).1
      (by omega) (fun j hj => absurd hj (Nat.not_lt_zero j)) rfl rfl,
   (c5_claim (fun _ => .op true none (some (some "boom")))
      (fun _ => .ok true (some (some "boom")) .undefV) "op" 0 none (some "boom")).2.2
      0 119 (some "boom") .undefV rfl⟩

/-- A string with a non-empty prefix is non-empty. -/
theorem append_ne_left (p s : String) (hp : p ≠ "") : p ++ s ≠ "" := by
  intro h
  apply hp
  have h2 := congrArg String.length h
  rw [String.length_append] at h2
  have h0 : ("" : String).length = 0 := rfl
  rw [h0] at h2
  have hl : p.length = 0 := by omega
  cases p with
  | mk d =>
    cases d with
    | nil => rfl
    | cons c cs => simp [String.length] at hl

/-- The wait mechanism of an operation rejects only with a non-empty
message. -/
def waitNonempty : WaitSpec → Prop
  | .waitFn (.error e) => e ≠ ""
  | .waitFn (.ok _) => True
  | .resultField (.error e) => e ≠ ""
  | .resultField (.ok _) => True
  | .thenable (.error e) => e ≠ ""
  | .thenable (.ok _) => True
  | .manualPoll => True

/-- All errors the environment throws carry non-empty messages: failed
submissions, rejected waits of operations the environment hands out,
and thrown asset fetches. -/
def throwsNonempty (env : VeoEnv) : Prop :=
  (∀ req e, env.submit req = .error e → e ≠ "") ∧
  (∀ req op, env.submit req = .ok op → waitNonempty op.waitSpec) ∧
  (∀ u m, env.blobFetch u = .bthrow m → m ≠ "")

/-- An error thrown out of the asset fetch has a non-empty message when
the environment's thrown fetches do. -/
theorem fetchVideoAsBlob_error_ne (env : VeoEnv) (u e : String)
    (hb : ∀ u2 m, env.blobFetch u2 = .bthrow m → m ≠ "")
    (h : fetchVideoAsBlob env u = .error e) : e ≠ "" := by
  unfold fetchVideoAsBlob at h
  cases hf : env.blobFetch (urlWithKey env.apiKey u) with
  | bthrow msg =>
    rw [hf] at h
    injection h with h2
    subst h2
    exact hb _ _ hf
  | notOk st stx =>
    rw [hf] at h
    injection h with h2
    subst h2
    exact append_ne_left _ _ (append_ne_left _ _ (append_ne_left _ _ (by decide)))
  | okBlob b => rw [hf] at h; exact absurd h (by simp)

/-- An error thrown out of the post-wait handling has a non-empty
message when the environment's thrown fetches do. -/
theorem afterWait_error_ne (env : VeoEnv) (opName : String) (res : JsVal) (e : String)
    (hb : ∀ u2 m, env.blobFetch u2 = .bthrow m → m ≠ "")
    (h : afterWait env opName res = .error e) : e ≠ "" := by
  unfold afterWait at h
  split at h
  · rename_i uri hx
    cases hf : fetchVideoAsBlob env uri with
    | error e2 =>
      rw [hf] at h
      injection h with h2
      subst h2
      exact fetchVideoAsBlob_error_ne env uri _ hb hf
    | ok blobUrl => rw [hf] at h; exact absurd h (by simp)
  · exact absurd h (by simp)

/-- An error thrown out of the operation handling has a non-empty
message when the operation's wait and the environment's thrown fetches
reject with non-empty messages. -/
theorem processOperation_error_ne (env : VeoEnv) (op : Operation) (e : String)
    (hwne : waitNonempty op.waitSpec)
    (hb : ∀ u2 m, env.blobFetch u2 = .bthrow m → m ≠ "")
    (h : processOperation env op = .error e) : e ≠ "" := by
  unfold processOperation at h
  split at h
  · rename_i opName hn
    cases hw : waitResult env op opName with
    | error e2 =>
      rw [hw] at h
      injection h with h2
      subst h2
      unfold waitResult at hw
      cases hws : op.waitSpec with
      | waitFn r =>
        rw [hws] at hw hwne
        have hr : r = .error e2 := hw
        rw [hr] at hwne
        exact hwne
      | resultField r =>
        rw [hws] at hw hwne
        have hr : r = .error e2 := hw
        rw [hr] at hwne
        exact hwne
      | thenable r =>
        rw [hws] at hw hwne
        have hr : r = .error e2 := hw
        rw [hr] at hwne
        exact hwne
      | manualPoll =>
        rw [hws] at hw
        simp at hw
    | ok res =>
      rw [hw] at h
      exact afterWait_error_ne env opName res e hb h
  · rename_i hn
    split at h
    · exact absurd h (by simp)
    · exact absurd h (by simp)

/-- A rethrown submission error is the primary submission's error. -/
theorem submitPhase_error_ne (env : VeoEnv) (config : VideoGenerationConfig) (e : String)
    (hs : ∀ req e2, env.submit req = .error e2 → e2 ≠ "")
    (h : submitPhase env config = .error e) : e ≠ "" := by
  unfold submitPhase at h
  cases h1 : env.submit (primaryRequest config) with
  | ok op => rw [h1] at h; exact absurd h (by simp)
  | error e1 =>
    rw [h1] at h
    cases h2 : env.submit (fallbackRequest config) with
    | ok op => rw [h2] at h; exact absurd h (by simp)
    | error e2 =>
      rw [h2] at h
      injection h with h3
      subst h3
      exact hs _ _ h1

/-- A successfully submitted operation comes from the primary or the
fallback submission. -/
theorem submitPhase_ok (env : VeoEnv) (config : VideoGenerationConfig) (op : Operation)
    (h : submitPhase env config = .ok op) :
    env.submit (primaryRequest config) = .ok op ∨ env.submit (fallbackRequest config) = .ok op := by
  unfold submitPhase at h
  cases h1 : env.submit (primaryRequest config) with
  | ok op2 =>
    rw [h1] at h
    injection h with h2
    subst h2
    exact Or.inl rfl
  | error e1 =>
    rw [h1] at h
    cases h2 : env.submit (fallbackRequest config) with
    | ok op2 =>
      rw [h2] at h
      injection h with h3
      subst h3
      exact Or.inr rfl
    | error e2 => rw [h2] at h; exact absurd h (by simp)

/-- The catch block turns a non-empty thrown message into a failed
result carrying a non-empty message. -/
theorem catchHandler_error_ne (e : String) (he : e ≠ "") :
    ∃ m, (catchHandler e).error = some m ∧ m ≠ "" := by
  unfold catchHandler
  split
  · exact ⟨_, rfl, append_ne_left _ _ (by decide)⟩
  · exact ⟨e, rfl, he⟩

/-- A failed result built inside the try block carries one of the two
literal-prefixed non-empty messages. -/
theorem processOperation_ok_failed (env : VeoEnv) (op : Operation) (r : VideoGenerationResult)
    (h : processOperation env op = .ok r) (hst : r.status = .failed) :
    ∃ m, r.error = some m ∧ m ≠ "" := by
  unfold processOperation at h
  split at h
  · rename_i opName hn
    split at h
    · exact absurd h (by simp)
    · rename_i res hw
      unfold afterWait at h
      split at h
      · rename_i uri hx
        cases hf : fetchVideoAsBlob env uri with
        | error e2 => rw [hf] at h; exact absurd h (by simp)
        | ok blobUrl =>
          rw [hf] at h
          injection h with h2
          subst h2
          simp at hst
      · injection h with h2
        subst h2
        exact ⟨_, rfl, append_ne_left _ _ (by decide)⟩
  · rename_i hn
    split at h
    · rename_i uri hu
      injection h with h2
      subst h2
      simp at hst
    · injection h with h2
      subst h2
      exact ⟨_, rfl, append_ne_left _ _ (by decide)⟩

/-- Counterexample to C4: the pipeline surfaces a thrown submission
error message verbatim, so a thrown error whose message is empty
produces a failed result whose error message is the empty string. -/
theorem c4_counterexample :
    generateVideo ⟨"k", fun _ => .error "", fun _ _ => .fthrow, fun _ => .bthrow "x",
        fun _ => "u"⟩ ⟨"p", none, none⟩ =
      ⟨"", .failed, none, some ""⟩ := by decide

/-- C4 (amended): generateVideo never propagates an exception: its
embedding is a total function whose every failure path yields a result
tagged failed carrying an error message; that message is non-empty
whenever the errors thrown by the environment carry non-empty
messages, the empty-message exception being surfaced verbatim
otherwise. -/
theorem c4_claim (env : VeoEnv) (config : VideoGenerationConfig)
    (h : throwsNonempty env) :
    (generateVideo env config).status = .failed →
    ∃ m, (generateVideo env config).error = some m ∧ m ≠ "" := by
  obtain ⟨hs, hw, hb⟩ := h
  unfold generateVideo generateVideoTry
  cases h1 : submitPhase env config with
  | error e =>
    simp only [runCatch]
    intro _
    exact catchHandler_error_ne e (submitPhase_error_ne env config e hs h1)
  | ok op =>
    cases h2 : processOperation env op with
    | error e =>
      simp only [h2, runCatch]
      intro _
      apply catchHandler_error_ne
      have hwne : waitNonempty op.waitSpec := by
        rcases submitPhase_ok env config op h1 with hp | hp
        · exact hw _ op hp
        · exact hw _ op hp
      exact processOperation_error_ne env op e hwne hb h2
    | ok r =>
      simp only [h2, runCatch]
      intro hst
      exact processOperation_ok_failed env op r h2 hst

/-- Witness for C4: a concrete environment throwing boom at submission
yields a failed result with a non-empty message. -/
theorem c4_witness :
    ∃ m, (generateVideo ⟨"k", fun _ => .error "boom", fun _ _ => .fthrow, fun _ => .bthrow "x",
        fun _ => "u"⟩ ⟨"p", none, none⟩).error = some m ∧ m ≠ "" := by
  have ht : throwsNonempty ⟨"k", fun _ => .error "boom", fun _ _ => .fthrow, fun _ => .bthrow "x",
      fun _ => "u"⟩ := by
    refine ⟨?_, ?_, ?_⟩
    · intro req e h
      injection h with h2
      subst h2
      decide
    · intro req op h
      simp at h
    · intro u m h
      injection h with h2
      subst h2
      decide
  exact c4_claim _ _ ht (by decide)

/-- C3: when the primary model-variant submission throws, generateVideo
attempts the fallback variant exactly once: a successful fallback's
operation drives the rest of the pipeline; if the fallback also throws,
the surfaced failed result is built from the primary's original error,
whatever the fallback's error was, and when the primary error does not
mention predictLongRunning or 404 the failed result's error message is
the primary error verbatim; the whole result depends on no submission
other than the primary and fallback requests. -/
theorem c3_claim (env : VeoEnv) (config : VideoGenerationConfig) (e1 : String)
    (h1 : env.submit (primaryRequest config) = .error e1) :
    (∀ op, env.submit (fallbackRequest config) = .ok op →
      generateVideo env config = runCatch (processOperation env op)) ∧
    (∀ e2, env.submit (fallbackRequest config) = .error e2 →
      generateVideo env config = catchHandler e1) ∧
    (∀ e2, env.submit (fallbackRequest config) = .error e2 →
      jsIncludes e1 "predictLongRunning" = false → jsIncludes e1 "404" = false →
      (generateVideo env config).error = some e1 ∧
        (generateVideo env config).status = .failed) ∧
    (∀ s2 : SubmitRequest → Except String Operation,
      s2 (primaryRequest config) = env.submit (primaryRequest config) →
      s2 (fallbackRequest config) = env.submit (fallbackRequest config) →
      generateVideo ⟨env.apiKey, s2, env.pollEnv, env.blobFetch, env.objectUrlOf⟩ config =
        generateVideo env config) := by
  have hsub : ∀ op, env.submit (fallbackRequest config) = .ok op →
      submitPhase env config = .ok op := by
    intro op h2
    unfold submitPhase
    rw [h1, h2]
  have hsub2 : ∀ e2, env.submit (fallbackRequest config) = .error e2 →
      submitPhase env config = .error e1 := by
    intro e2 h2
    unfold submitPhase
    rw [h1, h2]
  refine ⟨?_, ?_, ?_, ?_⟩
  · intro op h2
    unfold generateVideo generateVideoTry
    rw [hsub op h2]
  · intro e2 h2
    unfold generateVideo generateVideoTry
    rw [hsub2 e2 h2]
    rfl
  · intro e2 h2 hi1 hi2
    have hgc : generateVideo env config = catchHandler e1 := by
      unfold generateVideo generateVideoTry
      rw [hsub2 e2 h2]
      rfl
    rw [hgc]
    unfold catchHandler
    rw [if_neg (by simp [hi1, hi2])]
    exact ⟨rfl, rfl⟩
  · intro s2 hs1 hs2
    have h1b : s2 (primaryRequest config) = .error e1 := hs1.trans h1
    cases hq : env.submit (fallbackRequest config) with
    | ok op =>
      have h2b : s2 (fallbackRequest config) = .ok op := hs2.trans hq
      have ha : submitPhase ⟨env.apiKey, s2, env.pollEnv, env.blobFetch, env.objectUrlOf⟩ config =
          .ok op := by
        unfold submitPhase
        rw [show (⟨env.apiKey, s2, env.pollEnv, env.blobFetch, env.objectUrlOf⟩ : VeoEnv).submit
          = s2 from rfl]
        rw [h1b, h2b]
      have hb2 : submitPhase env config = .ok op := hsub op hq
      unfold generateVideo generateVideoTry
      rw [ha, hb2]
      rfl
    | error e2 =>
      have h2b : s2 (fallbackRequest config) = .error e2 := hs2.trans hq
      have ha : submitPhase ⟨env.apiKey, s2, env.pollEnv, env.blobFetch, env.objectUrlOf⟩ config =
          .error e1 := by
        unfold submitPhase
        rw [show (⟨env.apiKey, s2, env.pollEnv, env.blobFetch, env.objectUrlOf⟩ : VeoEnv).submit
          = s2 from rfl]
        rw [h1b, h2b]
      have hb2 : submitPhase env config = .error e1 := hsub2 e2 hq
      unfold generateVideo generateVideoTry
      rw [ha, hb2]

/-- Witness for C3: with a primary submission throwing boom1 and a
fallback submission throwing boom2, the pipeline's failed result
carries boom1. -/
theorem c3_witness :
    (generateVideo ⟨"k",
        fun req => if req.model = "veo-3.1-fast-generate-preview"
          then .error "boom1" else .error "boom2",
        fun _ _ => .fthrow, fun _ => .bthrow "x", fun _ => "u"⟩
      ⟨"p", none, none⟩).error = some "boom1" ∧
    (generateVideo ⟨"k",
        fun req => if req.model = "veo-3.1-fast-generate-preview"
          then .error "boom1" else .error "boom2",
        fun _ _ => .fthrow, fun _ => .bthrow "x", fun _ => "u"⟩
      ⟨"p", none, none⟩).status = .failed :=
  (c3_claim ⟨"k",
      fun req => if req.model = "veo-3.1-fast-generate-preview"
        then .error "boom1" else .error "boom2",
      fun _ _ => .fthrow, fun _ => .bthrow "x", fun _ => "u"⟩
    ⟨"p", none, none⟩ "boom1" rfl).2.2.1 "boom2" rfl (by decide) (by decide)
